import Mathlib

/-!
Verification development for the http-status-mock server (src/server.js).

The server is embedded shallowly: the route handlers become pure Lean
functions on the request's path segments, HTTP responses become a small
inductive type recording the status line and the dynamic data interpolated
into each fixed HTML template, JavaScript exceptions and `next(err)` become
explicit error values routed to the single error-handling middleware, and
the `express-rate-limit` fixed-window limiter becomes a step function on an
explicit counter state.
-/

/-- Characters treated as whitespace by ECMAScript `parseInt` that can occur
in a decoded URL path segment (space, tab, line feed, carriage return,
vertical tab, form feed). -/
def jsWhitespace (c : Char) : Bool :=
  c = ' ' || c = '\t' || c = '\n' || c = '\x0d' || c = '\x0b' || c = '\x0c'

/-- Numeric value of a digit character, for radixes up to 16; 36 marks a
character that is not a digit in any radix the server can reach. -/
def digitVal (c : Char) : Nat :=
  if '0' ≤ c && c ≤ '9' then c.toNat - '0'.toNat
  else if 'a' ≤ c && c ≤ 'f' then c.toNat - 'a'.toNat + 10
  else if 'A' ≤ c && c ≤ 'F' then c.toNat - 'A'.toNat + 10
  else 36

/-- Whether `c` is a digit of the given radix. -/
def isRadixDigit (radix : Nat) (c : Char) : Bool := digitVal c < radix

/-- Value of a digit string in the given radix (most significant first). -/
def digitsToNat (radix : Nat) (ds : List Char) : Nat :=
  ds.foldl (fun acc c => radix * acc + digitVal c) 0

/-- The sign read by `parseInt` from the start of the trimmed input. -/
def signOf (l : List Char) : Int :=
  if l.head? = some '-' then -1 else 1

/-- The trimmed input after an optional leading sign character. -/
def afterSign (l : List Char) : List Char :=
  if l.head? = some '-' ∨ l.head? = some '+' then l.tail else l

/-- Whether the (trimmed, sign-stripped) input opens a `0x`/`0X`
hexadecimal literal, which switches `parseInt` with no radix argument to
radix 16. -/
def hexShaped (l : List Char) : Prop :=
  l.head? = some '0' ∧ (l.tail.head? = some 'x' ∨ l.tail.head? = some 'X')

instance hexShapedDec (l : List Char) : Decidable (hexShaped l) := by
  unfold hexShaped
  exact inferInstance

/-- The radix `parseInt` settles on: 16 after a `0x`/`0X` opener, else 10. -/
def radixOf (l : List Char) : Nat := if hexShaped l then 16 else 10

/-- The longest digit run `parseInt` converts, taken after the `0x`/`0X`
opener when one is present. -/
def digitsPart (l : List Char) : List Char :=
  (if hexShaped l then l.tail.tail else l).takeWhile (isRadixDigit (radixOf l))

/-- Embeds the ECMAScript builtin `parseInt(string)` as called with no radix
argument at src/server.js line 103: leading whitespace is skipped, an
optional sign is consumed, a leading `0x`/`0X` switches the radix to 16,
then the longest prefix of radix digits is converted; the result is NaN
(here `none`) when that prefix is empty. -/
def parseIntJS (s : String) : Option Int :=
  let l0 := s.toList.dropWhile jsWhitespace
  let l1 := afterSign l0
  let ds := digitsPart l1
  if ds = [] then none
  else some (signOf l0 * (digitsToNat (radixOf l1) ds : Int))

/-- Association-list lookup keyed by integer status code, used for the two
static tables below. -/
def tableLookup (c : Int) : List (Int × String) → Option String
  | [] => none
  | (k, v) :: rest => if c = k then some v else tableLookup c rest

/-- The status-code-to-reason-phrase table of the `http-status-codes` npm
package (its `statusCodeToReasonPhrase` map), which backs the imported
`getReasonPhrase`. The package is an external dependency of the repository;
its table is reproduced here so that lookups evaluate. -/
def reasonPhrases : List (Int × String) :=
  [(100, "Continue"), (101, "Switching Protocols"), (102, "Processing"),
   (103, "Early Hints"),
   (200, "OK"), (201, "Created"), (202, "Accepted"),
   (203, "Non Authoritative Information"), (204, "No Content"),
   (205, "Reset Content"), (206, "Partial Content"), (207, "Multi-Status"),
   (300, "Multiple Choices"), (301, "Moved Permanently"),
   (302, "Moved Temporarily"), (303, "See Other"), (304, "Not Modified"),
   (305, "Use Proxy"), (307, "Temporary Redirect"), (308, "Permanent Redirect"),
   (400, "Bad Request"), (401, "Unauthorized"), (402, "Payment Required"),
   (403, "Forbidden"), (404, "Not Found"), (405, "Method Not Allowed"),
   (406, "Not Acceptable"), (407, "Proxy Authentication Required"),
   (408, "Request Timeout"), (409, "Conflict"), (410, "Gone"),
   (411, "Length Required"), (412, "Precondition Failed"),
   (413, "Request Entity Too Large"), (414, "Request-URI Too Long"),
   (415, "Unsupported Media Type"), (416, "Requested Range Not Satisfiable"),
   (417, "Expectation Failed"), (418, "I\x27m a teapot"),
   (419, "Insufficient Space on Resource"), (420, "Method Failure"),
   (421, "Misdirected Request"), (422, "Unprocessable Entity"),
   (423, "Locked"), (424, "Failed Dependency"), (426, "Upgrade Required"),
   (428, "Precondition Required"), (429, "Too Many Requests"),
   (431, "Request Header Fields Too Large"),
   (451, "Unavailable For Legal Reasons"),
   (500, "Internal Server Error"), (501, "Not Implemented"),
   (502, "Bad Gateway"), (503, "Service Unavailable"), (504, "Gateway Timeout"),
   (505, "HTTP Version Not Supported"), (507, "Insufficient Storage"),
   (511, "Network Authentication Required")]

/-- `getReasonPhrase` of the `http-status-codes` package, as an Option:
`none` where the library throws `Error("Status code does not exist: " + c)`
because the code is absent from its table. -/
def getReasonPhraseOpt (c : Int) : Option String := tableLookup c reasonPhrases

/-- Modelled from the spec: the module `./status-descriptions` required at
src/server.js line 6 is not present under src/. The spec describes it as a
static, immutable mapping from a subset of codes to a longer explanatory
sentence, seeded with common codes such as 200, 404 and 500; the index page
built from its keys shows the usual common codes of every hundred-class.
Keys are listed in ascending numeric order, matching the enumeration order
of integer-like keys by JavaScript `Object.keys`. -/
def statusDescriptions : List (Int × String) :=
  [(100, "The server has received the request headers and the client should proceed to send the request body."),
   (101, "The requester has asked the server to switch protocols and the server has agreed to do so."),
   (200, "The request has succeeded and the response contains the requested data."),
   (201, "The request has been fulfilled and a new resource has been created."),
   (204, "The server successfully processed the request and is not returning any content."),
   (301, "The requested resource has been assigned a new permanent URI."),
   (302, "The requested resource resides temporarily under a different URI."),
   (304, "The resource has not been modified since the last request."),
   (400, "The server cannot process the request due to a client error such as malformed syntax."),
   (401, "The request requires user authentication."),
   (403, "The server understood the request but refuses to authorize it."),
   (404, "The server cannot find the requested resource."),
   (500, "The server encountered an unexpected condition that prevented it from fulfilling the request."),
   (502, "The server received an invalid response from an upstream server while acting as a gateway."),
   (503, "The server is currently unable to handle the request due to temporary overload or maintenance.")]

/-- A JavaScript Error object as the server uses them: the `name` set by the
constructor, the optional `statusCode` field added by the HttpError classes
of src/server.js lines 9-22, and the `message`. -/
structure JsError where
  name : String
  statusCode : Option Int
  message : String
deriving DecidableEq

/-- `new HttpError(statusCode, message)` (src/server.js lines 9-15). -/
def httpError (statusCode : Int) (message : String) : JsError :=
  ⟨"HttpError", some statusCode, message⟩

/-- `new ValidationError(message)` (src/server.js lines 17-22): an HttpError
with status code 400. -/
def validationError (message : String) : JsError :=
  ⟨"ValidationError", some 400, message⟩

/-- The plain Error thrown by the `http-status-codes` package when
`getReasonPhrase` is called on a code absent from its table; it carries no
`statusCode` field. -/
def reasonPhraseError (c : Int) : JsError :=
  ⟨"Error", none, "Status code does not exist: " ++ toString c⟩

/-- An HTTP response of the server, recording the status line and the
dynamic data interpolated into the fixed HTML template that produced it.
`statusPage` is the template of src/server.js lines 111-177 (code heading,
reason phrase, description, and a link home); `indexPage` is the template of
lines 190-279, whose groups carry a class title and the `(code, label)`
pairs rendered as links to the code's page; `errorPage` is the template of
the error middleware, lines 307-359 (status heading, message, link home);
`rateLimited` is the JSON message object sent by `express-rate-limit`. -/
inductive Response where
  | statusPage (status : Int) (code : Int) (phrase : String) (description : String)
  | indexPage (status : Int) (groups : List (String × List (Int × String)))
  | errorPage (status : Int) (message : String)
  | rateLimited (status : Int) (message : String)
deriving DecidableEq

/-- Outcome of an express route handler: a response sent, an error passed to
`next`, or a synchronous throw (which express forwards to the error
middleware just like `next`). -/
inductive HandlerOut where
  | respond (r : Response)
  | nextErr (e : JsError)
  | thrown (e : JsError)
deriving DecidableEq

/-- The fallback placeholder of src/server.js line 171. -/
def fallbackDescription : String := "No additional description available."

/-- The description interpolated at src/server.js line 171:
`statusDescriptions[statusCode] || 'No additional description available.'`.
A missing key, like an empty string (both falsy in JavaScript), yields the
fallback placeholder. -/
def descriptionFor (c : Int) : String :=
  match tableLookup c statusDescriptions with
  | some d => if d = "" then fallbackDescription else d
  | none => fallbackDescription

/-- The `/:statusCode` handler (src/server.js lines 102-178): parse the path
parameter with `parseInt`; on NaN or a value outside [100, 599] pass a
ValidationError to `next`; otherwise call `getReasonPhrase` (which throws on
a code missing from its table) and send the status page with the response
status set to the parsed code. -/
def statusCodeHandler (param : String) : HandlerOut :=
  match parseIntJS param with
  | none => .nextErr (validationError "Invalid status code")
  | some c =>
    if c < 100 ∨ c > 599 then .nextErr (validationError "Invalid status code")
    else
      match getReasonPhraseOpt c with
      | none => .thrown (reasonPhraseError c)
      | some p => .respond (.statusPage c c p (descriptionFor c))

/-- One link of the index page (src/server.js lines 263-272): the code and
its label, the reason phrase guarded by try/catch so that a failed lookup
leaves the label's phrase part as the empty string. -/
def renderLink (c : Int) : Int × String :=
  (c, (getReasonPhraseOpt c).getD "")

/-- The `statusGroups` object of src/server.js lines 182-188 together with
the link rendering of lines 259-275, generalized over the description
table: the table's keys are filtered into the five hundred-classes and each
code becomes a link. -/
def indexGroupsOf (tbl : List (Int × String)) : List (String × List (Int × String)) :=
  let keys := tbl.map Prod.fst
  [("1xx Informational", ((keys.filter fun c => 100 ≤ c ∧ c < 200).map renderLink)),
   ("2xx Success", ((keys.filter fun c => 200 ≤ c ∧ c < 300).map renderLink)),
   ("3xx Redirection", ((keys.filter fun c => 300 ≤ c ∧ c < 400).map renderLink)),
   ("4xx Client Error", ((keys.filter fun c => 400 ≤ c ∧ c < 500).map renderLink)),
   ("5xx Server Error", ((keys.filter fun c => 500 ≤ c ∧ c < 600).map renderLink))]

/-- The `GET /` handler (src/server.js lines 180-280) over a given
description table: `res.send` with no explicit status sends 200. -/
def indexResponseOf (tbl : List (Int × String)) : Response :=
  .indexPage 200 (indexGroupsOf tbl)

/-- The `GET /` handler applied to the server's description table. -/
def indexResponse : Response := indexResponseOf statusDescriptions

/-- Log severity used by the error middleware. -/
inductive LogLevel where
  | warn
  | error
deriving DecidableEq

/-- The error-handling middleware (src/server.js lines 286-360):
`err.statusCode || 500` (a missing or zero status code, both falsy, default
to 500), `err.message || 'Internal Server Error'`, logging at `error` for
status 500 and above and `warn` below, and the error HTML page carrying the
status and message. -/
def errorMiddleware (err : JsError) : Response × LogLevel :=
  let status : Int :=
    match err.statusCode with
    | some c => if c = 0 then 500 else c
    | none => 500
  let msg := if err.message = "" then "Internal Server Error" else err.message
  let level := if status ≥ 500 then LogLevel.error else LogLevel.warn
  (.errorPage status msg, level)

/-- Routing of a GET request, given as its decoded path segments: `[]` is
`/`, handled by the index route; a single segment matches `/:statusCode`;
anything longer matches no route and reaches the fallback middleware of
src/server.js lines 282-284, which passes `new HttpError(404, 'Resource not
found')` to `next`. The result is either an error bound for the error
middleware or a response already sent. (The `express.static('public')`
middleware is not modelled: the repository ships no `public` asset that any
claim concerns, matching the claims' "when no such asset exists".) -/
def routeOutcome (segments : List String) : Sum JsError Response :=
  match segments with
  | [] => .inr indexResponse
  | [p] =>
    match statusCodeHandler p with
    | .respond r => .inr r
    | .nextErr e => .inl e
    | .thrown e => .inl e
  | _ => .inl (httpError 404 "Resource not found")

/-- The full pipeline below the rate limiter: route the request and convert
any error into the error middleware's page, so every request gets exactly
one response. -/
def dispatch (segments : List String) : Response :=
  match routeOutcome segments with
  | .inl e => (errorMiddleware e).1
  | .inr r => r

/-- The window length of the rate limiter, src/server.js line 90. -/
def windowMs : Nat := 1 * 60 * 1000

/-- The per-IP request cap of the rate limiter, src/server.js line 91. -/
def maxRequests : Nat := 100

/-- The message of the limiter's 429 body, src/server.js line 94. -/
def limiterMessage : String :=
  "Too many requests from this IP, please try again after a minute"

/-- State of the `express-rate-limit` fixed-window memory store: the instant
at which the current window ends and the hit count recorded for each IP in
that window. -/
structure LimiterState where
  resetTime : Nat
  hits : String → Nat

/-- One request through the limiter (src/server.js lines 89-98): when the
window has elapsed all counters reset and a new window opens; the caller's
counter is incremented; a count beyond the cap is answered with the 429
message body instead of reaching the routes (`none` means the request
passes through). -/
def limiterStep (st : LimiterState) (ip : String) (now : Nat) :
    LimiterState × Option Response :=
  let st1 := if st.resetTime ≤ now then ⟨now + windowMs, fun _ => 0⟩ else st
  let n := st1.hits ip + 1
  let st2 : LimiterState := ⟨st1.resetTime, fun k => if k = ip then n else st1.hits k⟩
  (st2, if n > maxRequests then some (.rateLimited 429 limiterMessage) else none)

/-- Modelled from the spec: parsing a raw path string "as a base-10
integer" in the spec's own words (section 4.1) — an optional sign followed
by decimal digits making up the whole string. This definition states claims
in the spec's terms only, for comparison with `parseIntJS`, the embedding
of what the source actually calls. -/
def parseBase10 (s : String) : Option Int :=
  let (sign, ds) : Int × List Char :=
    if s.toList.head? = some '-' then (-1, s.toList.tail)
    else if s.toList.head? = some '+' then (1, s.toList.tail)
    else (1, s.toList)
  if ds ≠ [] ∧ ds.all (isRadixDigit 10) then
    some (sign * (digitsToNat 10 ds : Int))
  else none

/-- The hundred-class title a code belongs under, following the claim's
"bucket by leading digit" wording; meaningful for codes in [100, 599]. -/
def classTitle (c : Int) : String :=
  if c < 200 then "1xx Informational"
  else if c < 300 then "2xx Success"
  else if c < 400 then "3xx Redirection"
  else if c < 500 then "4xx Client Error"
  else "5xx Server Error"

/-- The ten decimal digit characters. -/
def decimalDigits : List Char :=
  ['0', '1', '2', '3', '4', '5', '6', '7', '8', '9']

/-! ## Claim theorems -/

/-- C1 (code bug): the spec and the README promise that every code in
[100, 599] is echoed back as the response status, but 104 lies in that range
and has no entry in the reason-phrase table of the `http-status-codes`
package, so `getReasonPhrase` throws inside the unguarded handler and the
error middleware answers with a 500 error page instead of a 104 status
page. -/
theorem claim_c1_code_bug :
    (100 ≤ (104 : Int) ∧ (104 : Int) ≤ 599) ∧ getReasonPhraseOpt 104 = none ∧
    dispatch ["104"] = Response.errorPage 500 "Status code does not exist: 104" := by
  decide

/-- C2 (counterexample): "0x1F4" does not parse as a base-10 integer, yet
`GET /0x1F4` is not answered with a 400 ValidationError: `parseInt` reads
it as hexadecimal 500, and a status page with status 500 is emitted. -/
theorem claim_c2_counterexample :
    parseBase10 "0x1F4" = none ∧
    dispatch ["0x1F4"] =
      Response.statusPage 500 500 "Internal Server Error" (descriptionFor 500) := by
  decide

/-- C3 (counterexample): `GET /favicon.ico`, the claim's own example, is
matched by the `/:statusCode` route (whose parameter accepts any single
path segment), so it is answered with the 400 "Invalid status code" error
page, not with the 404 not-found page. -/
theorem claim_c3_counterexample :
    parseBase10 "favicon.ico" = none ∧
    dispatch ["favicon.ico"] = Response.errorPage 400 "Invalid status code" := by
  decide

/-- C5: the reason phrase rendered on the status page for `GET /404` is
exactly "Not Found", and for `GET /200` exactly "OK". -/
theorem claim_c5_reason_phrases :
    dispatch ["404"] = Response.statusPage 404 404 "Not Found" (descriptionFor 404) ∧
    dispatch ["200"] = Response.statusPage 200 200 "OK" (descriptionFor 200) := by
  decide

/-- C4: `GET /` returns status 200 and renders the index page; the five
groups carry the hundred-class titles in order; every documented code (key
of the description table) appears in exactly one group, namely the one
titled after its leading digit; every link is labelled with its code's
reason phrase (empty when the lookup fails); and links for the seeded
common codes 200, 404 and 500 are present with their phrases. -/
theorem claim_c4_index_page :
    dispatch [] = Response.indexPage 200 (indexGroupsOf statusDescriptions) ∧
    (indexGroupsOf statusDescriptions).map Prod.fst =
      ["1xx Informational", "2xx Success", "3xx Redirection",
       "4xx Client Error", "5xx Server Error"] ∧
    (∀ c ∈ statusDescriptions.map Prod.fst,
      ((indexGroupsOf statusDescriptions).filter
        (fun g => (g.2.map Prod.fst).contains c)).length = 1 ∧
      ∀ g ∈ indexGroupsOf statusDescriptions,
        ((g.2.map Prod.fst).contains c) = true ↔ g.1 = classTitle c) ∧
    (∀ g ∈ indexGroupsOf statusDescriptions, ∀ cl ∈ g.2,
      cl.2 = (getReasonPhraseOpt cl.1).getD "") ∧
    ((indexGroupsOf statusDescriptions).any (fun g => g.2.contains (200, "OK")) = true ∧
     (indexGroupsOf statusDescriptions).any (fun g => g.2.contains (404, "Not Found")) = true ∧
     (indexGroupsOf statusDescriptions).any
       (fun g => g.2.contains (500, "Internal Server Error")) = true) := by
  decide

/-! ## Helper lemmas -/

theorem tableLookup_val (P : String → Prop) :
    ∀ (tbl : List (Int × String)), (∀ kv ∈ tbl, P kv.2) →
    ∀ {c : Int} {d : String}, tableLookup c tbl = some d → P d := by
  intro tbl
  induction tbl with
  | nil => intro _ c d h; simp [tableLookup] at h
  | cons kv rest ih =>
      intro hall c d h
      obtain ⟨k, v⟩ := kv
      simp only [tableLookup] at h
      split at h
      · injection h with h
        subst h
        exact hall (k, v) (List.mem_cons_self _ _)
      · exact ih (fun kv hkv => hall kv (List.mem_cons_of_mem _ hkv)) h

set_option maxRecDepth 8000 in
theorem parseIntJS_decimal :
    ∀ n : Nat, n < 600 → 100 ≤ n →
      parseIntJS (toString ((n : Nat) : Int)) = some ((n : Nat) : Int) := by
  decide

theorem handler_invalid (s : String)
    (h : parseIntJS s = none ∨ ∃ v, parseIntJS s = some v ∧ (v < 100 ∨ v > 599)) :
    statusCodeHandler s = .nextErr (validationError "Invalid status code") := by
  rcases h with h | ⟨v, hv, hr⟩
  · simp only [statusCodeHandler, h]
  · simp only [statusCodeHandler, hv, if_pos hr]

theorem dispatch_validationError (s : String)
    (h : statusCodeHandler s = .nextErr (validationError "Invalid status code")) :
    routeOutcome [s] = .inl (validationError "Invalid status code") ∧
    dispatch [s] = Response.errorPage 400 "Invalid status code" := by
  have hro : routeOutcome [s] = .inl (validationError "Invalid status code") := by
    simp only [routeOutcome, h]
  refine ⟨hro, ?_⟩
  simp only [dispatch, hro]
  decide

theorem limiterStep_snd (st : LimiterState) (ip : String) (now : Nat) :
    (limiterStep st ip now).2 =
      if (if st.resetTime ≤ now then 0 else st.hits ip) + 1 > maxRequests
      then some (Response.rateLimited 429 limiterMessage) else none := by
  unfold limiterStep
  by_cases hr : st.resetTime ≤ now <;> simp [hr]

theorem limiterStep_hits (st : LimiterState) (ip : String) (now : Nat) :
    (limiterStep st ip now).1.hits ip =
      (if st.resetTime ≤ now then 0 else st.hits ip) + 1 := by
  unfold limiterStep
  by_cases hr : st.resetTime ≤ now <;> simp [hr]

/-! ## More claim theorems -/

/-- C2 (amended): for every path parameter that `parseInt` cannot read at
all (NaN) or reads to a value outside [100, 599] — rather than every string
that is not a base-10 integer — the handler passes a ValidationError to the
error boundary, which answers 400 with the message "Invalid status code";
no status page is emitted for that request. -/
theorem claim_c2_amended (s : String)
    (h : parseIntJS s = none ∨ ∃ v, parseIntJS s = some v ∧ (v < 100 ∨ v > 599)) :
    routeOutcome [s] = Sum.inl (validationError "Invalid status code") ∧
    dispatch [s] = Response.errorPage 400 "Invalid status code" :=
  dispatch_validationError s (handler_invalid s h)

/-- Witness for C2 (amended) at the parameter "abc". -/
theorem claim_c2_amended_witness :
    (parseIntJS "abc" = none ∨
      ∃ v, parseIntJS "abc" = some v ∧ (v < 100 ∨ v > 599)) ∧
    (routeOutcome ["abc"] = Sum.inl (validationError "Invalid status code") ∧
      dispatch ["abc"] = Response.errorPage 400 "Invalid status code") :=
  ⟨Or.inl (by decide), claim_c2_amended "abc" (Or.inl (by decide))⟩

/-- C3 (amended): a single-segment non-numeric path is matched by the
`/:statusCode` route and is answered 400 with "Invalid status code", while
a request path matched by no route (one with two or more segments) reaches
the fallback middleware and is answered 404 with the standard not-found
error page. -/
theorem claim_c3_amended :
    (∀ s, parseIntJS s = none →
      dispatch [s] = Response.errorPage 400 "Invalid status code") ∧
    (∀ segs : List String, 2 ≤ segs.length →
      dispatch segs = Response.errorPage 404 "Resource not found") := by
  constructor
  · intro s hs
    exact (dispatch_validationError s (handler_invalid s (Or.inl hs))).2
  · intro segs hlen
    match segs with
    | [] => simp at hlen
    | [a] => simp at hlen
    | a :: b :: t =>
      have h : dispatch (a :: b :: t) =
          (errorMiddleware (httpError 404 "Resource not found")).1 := rfl
      rw [h]
      decide

/-- Witness for C3 (amended) at "x.png" and at the two-segment path /a/b. -/
theorem claim_c3_amended_witness :
    (parseIntJS "x.png" = none ∧
      dispatch ["x.png"] = Response.errorPage 400 "Invalid status code") ∧
    (2 ≤ (["a", "b"] : List String).length ∧
      dispatch ["a", "b"] = Response.errorPage 404 "Resource not found") :=
  ⟨⟨by decide, claim_c3_amended.1 "x.png" (by decide)⟩,
   ⟨by decide, claim_c3_amended.2 ["a", "b"] (by decide)⟩⟩

/-- C6: for codes in [100, 599], a code missing from the description table
renders the fixed fallback placeholder, a code present renders its stored
description, and the status page the handler emits for `GET /c` (when the
reason-phrase lookup succeeds) carries exactly that description. -/
theorem claim_c6_description_fallback (c : Int) (h1 : 100 ≤ c) (h2 : c ≤ 599) :
    (tableLookup c statusDescriptions = none →
      descriptionFor c = "No additional description available.") ∧
    (∀ d, tableLookup c statusDescriptions = some d → descriptionFor c = d) ∧
    (∀ p, getReasonPhraseOpt c = some p →
      statusCodeHandler (toString c) =
        .respond (.statusPage c c p (descriptionFor c))) := by
  refine ⟨?_, ?_, ?_⟩
  · intro h
    unfold descriptionFor
    rw [h]
    rfl
  · intro d hd
    have hne : d ≠ "" :=
      tableLookup_val (fun s => s ≠ "") statusDescriptions (by decide) hd
    unfold descriptionFor
    rw [hd]
    simp [hne]
  · intro p hp
    have hcast : ((c.toNat : Nat) : Int) = c := Int.toNat_of_nonneg (by omega)
    have hparse := parseIntJS_decimal c.toNat (by omega) (by omega)
    rw [hcast] at hparse
    simp only [statusCodeHandler, hparse]
    rw [if_neg (by omega : ¬(c < 100 ∨ c > 599))]
    simp only [hp]

/-- Witness for C6 at code 404. -/
theorem claim_c6_witness :
    ((100 : Int) ≤ 404 ∧ (404 : Int) ≤ 599) ∧
    ((tableLookup 404 statusDescriptions = none →
      descriptionFor 404 = "No additional description available.") ∧
    (∀ d, tableLookup 404 statusDescriptions = some d → descriptionFor 404 = d) ∧
    (∀ p, getReasonPhraseOpt 404 = some p →
      statusCodeHandler (toString (404 : Int)) =
        .respond (.statusPage 404 404 p (descriptionFor 404)))) :=
  ⟨⟨by decide, by decide⟩, claim_c6_description_fallback 404 (by decide) (by decide)⟩

/-- C7: with the fixed one-minute window and the cap of 100 requests per
IP, a request from an IP that already has 100 recorded hits in the current
window is answered with the 429 message, and a request is passed through
(never rejected) exactly when its own count within the current window stays
within the cap. -/
theorem claim_c7_rate_limiter (st : LimiterState) (ip : String) (now : Nat) :
    (now < st.resetTime → maxRequests ≤ st.hits ip →
      (limiterStep st ip now).2 = some (Response.rateLimited 429 limiterMessage)) ∧
    ((limiterStep st ip now).2 = none ↔
      (limiterStep st ip now).1.hits ip ≤ maxRequests) := by
  constructor
  · intro hnow h100
    rw [limiterStep_snd, if_neg (by omega : ¬ st.resetTime ≤ now),
      if_pos (Nat.lt_succ_of_le h100)]
  · rw [limiterStep_snd, limiterStep_hits]
    by_cases hc : (if st.resetTime ≤ now then 0 else st.hits ip) + 1 > maxRequests
    · rw [if_pos hc]
      exact iff_of_false (by simp) (by omega)
    · rw [if_neg hc]
      exact iff_of_true rfl (by omega)

/-- Witness for C7: an IP with 100 hits in a still-open window is rejected. -/
theorem claim_c7_witness :
    ((0 : Nat) < (LimiterState.mk 60000 (fun _ => 100)).resetTime ∧
      maxRequests ≤ (LimiterState.mk 60000 (fun _ => 100)).hits "203.0.113.7") ∧
    ((limiterStep ⟨60000, fun _ => 100⟩ "203.0.113.7" 0).2 =
        some (Response.rateLimited 429 limiterMessage) ∧
      ((limiterStep ⟨60000, fun _ => 100⟩ "203.0.113.7" 0).2 = none ↔
        (limiterStep ⟨60000, fun _ => 100⟩ "203.0.113.7" 0).1.hits "203.0.113.7" ≤
          maxRequests)) :=
  ⟨⟨by decide, by decide⟩,
   ⟨(claim_c7_rate_limiter ⟨60000, fun _ => 100⟩ "203.0.113.7" 0).1
      (by decide) (by decide),
    (claim_c7_rate_limiter ⟨60000, fun _ => 100⟩ "203.0.113.7" 0).2⟩⟩

theorem statusMsg_ne_empty (c : Int) :
    "Status code does not exist: " ++ toString c ≠ "" := by
  intro hc
  have h2 : ("Status code does not exist: ").length + (toString c).length =
      ("" : String).length := by
    rw [← String.length_append, hc]
  have h3 : 0 < ("Status code does not exist: ").length := by decide
  have h4 : ("" : String).length = 0 := by decide
  omega

theorem errorMiddleware_reasonPhraseError (c : Int) :
    errorMiddleware (reasonPhraseError c) =
      (.errorPage 500 ("Status code does not exist: " ++ toString c), .error) := by
  simp only [errorMiddleware, reasonPhraseError]
  rw [if_neg (statusMsg_ne_empty c)]
  rfl

theorem routeOutcome_err (segs : List String) (e : JsError)
    (h : routeOutcome segs = .inl e) :
    e = validationError "Invalid status code" ∨
    (∃ c, e = reasonPhraseError c) ∨
    e = httpError 404 "Resource not found" := by
  match segs with
  | [] => simp [routeOutcome] at h
  | [p] =>
    simp only [routeOutcome, statusCodeHandler] at h
    cases hp : parseIntJS p with
    | none =>
      rw [hp] at h
      simp at h
      exact Or.inl h.symm
    | some c =>
      simp only [hp] at h
      by_cases hr : c < 100 ∨ c > 599
      · rw [if_pos hr] at h
        simp at h
        exact Or.inl h.symm
      · rw [if_neg hr] at h
        cases hph : getReasonPhraseOpt c with
        | none =>
          simp only [hph] at h
          simp at h
          exact Or.inr (Or.inl ⟨c, h.symm⟩)
        | some q =>
          simp only [hph] at h
          simp at h
  | a :: b :: t =>
    simp only [routeOutcome] at h
    simp at h
    exact Or.inr (Or.inr h.symm)

/-- C8: every error that actually reaches the error boundary is rendered as
the error HTML page whose status is the error's declared statusCode when
one is present and 500 otherwise, whose message is the error's message
(defaulting to "Internal Server Error" when empty), and which is logged at
warn below 500 and at error at 500 and above. -/
theorem claim_c8_error_boundary (segs : List String) (e : JsError)
    (h : routeOutcome segs = .inl e) :
    errorMiddleware e =
      (Response.errorPage (e.statusCode.getD 500)
        (if e.message = "" then "Internal Server Error" else e.message),
       if e.statusCode.getD 500 < 500 then LogLevel.warn else LogLevel.error) := by
  rcases routeOutcome_err segs e h with rfl | ⟨c, rfl⟩ | rfl
  · decide
  · rw [errorMiddleware_reasonPhraseError]
    simp only [reasonPhraseError]
    rw [if_neg (statusMsg_ne_empty c)]
    rfl
  · decide

/-- Witness for C8 at the request `GET /zzz`, whose error is the
ValidationError carried to the boundary. -/
theorem claim_c8_witness :
    routeOutcome ["zzz"] = Sum.inl (validationError "Invalid status code") ∧
    errorMiddleware (validationError "Invalid status code") =
      (Response.errorPage 400 "Invalid status code", LogLevel.warn) :=
  ⟨by decide,
   claim_c8_error_boundary ["zzz"] (validationError "Invalid status code") (by decide)⟩

theorem decimalDigit_isDigit (c : Char) (h : c ∈ decimalDigits) :
    isRadixDigit 10 c = true := by
  fin_cases h <;> decide

theorem takeWhile_append_stop (p : Char → Bool) :
    ∀ (ds : List Char) (r : Char) (t : List Char),
      (∀ c ∈ ds, p c = true) → p r = false →
      (ds ++ r :: t).takeWhile p = ds := by
  intro ds
  induction ds with
  | nil =>
    intro r t _ h2
    simp [List.takeWhile_cons, h2]
  | cons d ds ih =>
    intro r t h1 h2
    simp only [List.cons_append, List.takeWhile_cons, h1 d (List.mem_cons_self _ _),
      if_true]
    rw [ih r t (fun c hc => h1 c (List.mem_cons_of_mem _ hc)) h2]

theorem decimalDigit_not_ws (c : Char) (h : c ∈ decimalDigits) :
    jsWhitespace c = false := by
  fin_cases h <;> decide

theorem decimalDigit_ne (c : Char) (h : c ∈ decimalDigits) :
    c ≠ '-' ∧ c ≠ '+' := by
  fin_cases h <;> decide

theorem parseIntJS_digits (d : Char) (ds' : List Char) (r : Char) (t : List Char)
    (hd : d ∈ decimalDigits)
    (hdig : ∀ c ∈ ds', isRadixDigit 10 c = true)
    (hr : isRadixDigit 10 r = false)
    (hhex : ¬(d = '0' ∧ ds' = [] ∧ (r = 'x' ∨ r = 'X'))) :
    parseIntJS ⟨(d :: ds') ++ r :: t⟩ =
      some ((digitsToNat 10 (d :: ds') : Nat) : Int) := by
  obtain ⟨hm, hpl⟩ := decimalDigit_ne d hd
  have h0 : List.dropWhile jsWhitespace (d :: (ds' ++ r :: t)) =
      d :: (ds' ++ r :: t) := by
    simp [List.dropWhile_cons, decimalDigit_not_ws d hd]
  have h1 : afterSign (d :: (ds' ++ r :: t)) = d :: (ds' ++ r :: t) := by
    unfold afterSign
    rw [if_neg]
    rintro (hc | hc) <;> simp only [List.head?_cons, Option.some.injEq] at hc
    · exact hm hc
    · exact hpl hc
  have hsign : signOf (d :: (ds' ++ r :: t)) = 1 := by
    unfold signOf
    rw [if_neg]
    intro hc
    simp only [List.head?_cons, Option.some.injEq] at hc
    exact hm hc
  have hhexf : ¬ hexShaped (d :: (ds' ++ r :: t)) := by
    rintro ⟨hh, hxor⟩
    simp only [List.head?_cons, Option.some.injEq] at hh
    subst hh
    simp only [List.tail_cons] at hxor
    cases ds' with
    | nil =>
      simp only [List.nil_append, List.head?_cons, Option.some.injEq] at hxor
      exact hhex ⟨rfl, rfl, hxor⟩
    | cons d2 ds'' =>
      simp only [List.cons_append, List.head?_cons, Option.some.injEq] at hxor
      have hd2 := hdig d2 (List.mem_cons_self _ _)
      rcases hxor with rfl | rfl
      · exact absurd hd2 (by decide)
      · exact absurd hd2 (by decide)
  have hradix : radixOf (d :: (ds' ++ r :: t)) = 10 := by
    unfold radixOf
    rw [if_neg hhexf]
  have hdp : digitsPart (d :: (ds' ++ r :: t)) = d :: ds' := by
    unfold digitsPart
    rw [if_neg hhexf, hradix]
    rw [show (d :: (ds' ++ r :: t)) = (d :: ds') ++ r :: t from rfl]
    exact takeWhile_append_stop (isRadixDigit 10) (d :: ds') r t
      (by
        intro c hc
        rcases List.mem_cons.1 hc with rfl | hc2
        · exact decimalDigit_isDigit c hd
        · exact hdig c hc2)
      hr
  simp only [parseIntJS]
  rw [show (String.mk ((d :: ds') ++ r :: t)).toList = d :: (ds' ++ r :: t) from rfl]
  rw [h0, h1, hsign, hradix, hdp]
  rw [if_neg (by simp : ¬(d :: ds' = ([] : List Char)))]
  rw [one_mul]

/-- C9 (amended): for a path parameter made of a decimal-digit prefix
followed by non-digit characters, `parseInt` yields the prefix's value
unless the string opens a `0x`/`0X` hexadecimal literal; and when the
prefix's value lies in [100, 599] and has a standard reason phrase, the
response is the status page with status equal to that value (rather than a
400). -/
theorem claim_c9_amended (ds : List Char) (r : Char) (t : List Char)
    (hds : ds ≠ []) (hdig : ∀ c ∈ ds, c ∈ decimalDigits)
    (hnd : ∀ c ∈ r :: t, isRadixDigit 10 c = false)
    (hhex : ¬(ds = ['0'] ∧ (r = 'x' ∨ r = 'X'))) :
    parseIntJS ⟨ds ++ r :: t⟩ = some ((digitsToNat 10 ds : Nat) : Int) ∧
    ∀ ph, 100 ≤ digitsToNat 10 ds → digitsToNat 10 ds ≤ 599 →
      getReasonPhraseOpt (digitsToNat 10 ds) = some ph →
      dispatch [⟨ds ++ r :: t⟩] =
        Response.statusPage (digitsToNat 10 ds) (digitsToNat 10 ds) ph
          (descriptionFor (digitsToNat 10 ds)) := by
  cases ds with
  | nil => exact absurd rfl hds
  | cons d ds' =>
    have hdig' : ∀ c ∈ ds', isRadixDigit 10 c = true := fun c hc =>
      decimalDigit_isDigit c (hdig c (List.mem_cons_of_mem _ hc))
    have hr : isRadixDigit 10 r = false := hnd r (List.mem_cons_self _ _)
    have hhex' : ¬(d = '0' ∧ ds' = [] ∧ (r = 'x' ∨ r = 'X')) := by
      rintro ⟨h1, h2, h3⟩
      exact hhex ⟨by rw [h1, h2], h3⟩
    have hparse := parseIntJS_digits d ds' r t (hdig d (List.mem_cons_self _ _))
      hdig' hr hhex'
    refine ⟨hparse, ?_⟩
    intro ph hlo hhi hph
    have hresp : statusCodeHandler ⟨(d :: ds') ++ r :: t⟩ =
        .respond (.statusPage (digitsToNat 10 (d :: ds')) (digitsToNat 10 (d :: ds'))
          ph (descriptionFor (digitsToNat 10 (d :: ds')))) := by
      simp only [statusCodeHandler, hparse]
      rw [if_neg (by omega :
        ¬(((digitsToNat 10 (d :: ds') : Nat) : Int) < 100 ∨
          ((digitsToNat 10 (d :: ds') : Nat) : Int) > 599))]
      simp only [hph]
    simp only [dispatch, routeOutcome, hresp]

/-- Witness for C9 (amended) at the parameter "404abc". -/
theorem claim_c9_amended_witness :
    ((['4', '0', '4'] : List Char) ≠ [] ∧
      (∀ c ∈ (['4', '0', '4'] : List Char), c ∈ decimalDigits) ∧
      (∀ c ∈ ('a' :: ['b', 'c'] : List Char), isRadixDigit 10 c = false) ∧
      ¬((['4', '0', '4'] : List Char) = ['0'] ∧ ('a' = 'x' ∨ 'a' = 'X'))) ∧
    (parseIntJS ⟨['4', '0', '4'] ++ 'a' :: ['b', 'c']⟩ =
        some ((digitsToNat 10 ['4', '0', '4'] : Nat) : Int) ∧
      ∀ ph, 100 ≤ digitsToNat 10 ['4', '0', '4'] →
        digitsToNat 10 ['4', '0', '4'] ≤ 599 →
        getReasonPhraseOpt (digitsToNat 10 ['4', '0', '4']) = some ph →
        dispatch [⟨['4', '0', '4'] ++ 'a' :: ['b', 'c']⟩] =
          Response.statusPage (digitsToNat 10 ['4', '0', '4'])
            (digitsToNat 10 ['4', '0', '4']) ph
            (descriptionFor (digitsToNat 10 ['4', '0', '4']))) :=
  ⟨⟨by decide, by decide, by decide, by decide⟩,
   claim_c9_amended ['4', '0', '4'] 'a' ['b', 'c']
     (by decide) (by decide) (by decide) (by decide)⟩

/-- C10: for every description table whatsoever, rendering the index page
yields a normal 200 index page — never an error — and every link's label
carries the code's reason phrase when the guarded lookup succeeds and the
empty string when it fails. -/
theorem claim_c10_index_guarded (tbl : List (Int × String)) :
    ∃ gs, indexResponseOf tbl = Response.indexPage 200 gs ∧
      ∀ g ∈ gs, ∀ cl ∈ g.2, cl.2 = (getReasonPhraseOpt cl.1).getD "" := by
  refine ⟨indexGroupsOf tbl, rfl, ?_⟩
  intro g hg cl hcl
  have key : ∀ (cs : List Int), cl ∈ cs.map renderLink →
      cl.2 = (getReasonPhraseOpt cl.1).getD "" := by
    intro cs hm
    obtain ⟨c, _, rfl⟩ := List.mem_map.1 hm
    rfl
  simp only [indexGroupsOf, List.mem_cons, List.not_mem_nil, or_false] at hg
  rcases hg with rfl | rfl | rfl | rfl | rfl <;> exact key _ hcl

/-- Witness for C10 at a one-entry table whose code has no reason phrase. -/
theorem claim_c10_witness :
    ∃ gs, indexResponseOf [((999 : Int), "mystery")] = Response.indexPage 200 gs ∧
      ∀ g ∈ gs, ∀ cl ∈ g.2, cl.2 = (getReasonPhraseOpt cl.1).getD "" :=
  claim_c10_index_guarded [((999 : Int), "mystery")]

/-- C9 (counterexample): "0xF" consists of the decimal-digit prefix "0"
followed by the non-digit characters "xF", yet `parseInt` reads it as
hexadecimal 15, not as the prefix value 0; and "104abc" has the digit
prefix 104, inside [100, 599], yet the response status is 500 (the
unguarded reason-phrase lookup throws), not 104. -/
theorem claim_c9_counterexample :
    (parseIntJS "0xF" = some 15 ∧ digitsToNat 10 ['0'] = 0) ∧
    (parseIntJS "104abc" = some 104 ∧
      dispatch ["104abc"] =
        Response.errorPage 500 "Status code does not exist: 104") := by
  decide

/-- Witness for C4: the documented code 200 sits in exactly one group of
the rendered index. -/
theorem claim_c4_witness :
    (200 : Int) ∈ statusDescriptions.map Prod.fst ∧
    ((indexGroupsOf statusDescriptions).filter
      (fun g => (g.2.map Prod.fst).contains 200)).length = 1 :=
  ⟨by decide, (claim_c4_index_page.2.2.1 200 (by decide)).1⟩
